import Mathlib

/-!
Shallow embedding of the lab-evaluation engine of `tutor_tui`
(`src/tutor_tui/labs/evaluator.py`): the `GradeResult` record with its
dict round-trip, the pytest output parser with its regex fallback, the
unittest fallback runner, the static code-quality heuristics, the rubric
scorer, the grade persister and the two evaluators (`PythonEvaluator`,
`JavaScriptEvaluator`).  External effects (subprocess execution, the
stdlib JSON parser, the filesystem) are abstracted as inputs; everything
the module itself computes is translated directly from the source.
-/

namespace TutorTui

/-- The double-quote character. -/
def dqChar : Char := Char.ofNat 34

/-- The single-quote character. -/
def sqChar : Char := Char.ofNat 39

/-- The Python docstring marker made of three double quotes. -/
def dq3 : String := String.mk [dqChar, dqChar, dqChar]

/-- The Python docstring marker made of three single quotes. -/
def sq3 : String := String.mk [sqChar, sqChar, sqChar]

/-- Python's substring test `pat in s` on strings. -/
def pyIn (pat s : String) : Bool :=
  (List.range (s.data.length + 1)).any fun i => pat.data.isPrefixOf (s.data.drop i)

/-- Numeric value of a list of decimal digit characters (most significant first). -/
def digitsToNat (l : List Char) : Nat :=
  l.foldl (fun a c => a * 10 + (c.toNat - 48)) 0

/-- `re.search` for the pattern "(\d+)" followed by the literal `pat`:
scan left to right; a match at a position needs a nonempty maximal digit
run there immediately followed by `pat` (backtracking inside the run
cannot help because the character after a shorter run is a digit), and
the captured group is that digit run.  Returns the group's value. -/
def searchNumBefore (pat : List Char) : List Char → Option Nat
  | [] => none
  | c :: rest =>
    let run := (c :: rest).takeWhile Char.isDigit
    if run ≠ [] ∧ pat.isPrefixOf ((c :: rest).drop run.length) then
      some (digitsToNat run)
    else
      searchNumBefore pat rest

/-- Python's builtin `min` on two values. -/
def pyMin (a b : ℚ) : ℚ := if a ≤ b then a else b

/-- Python's builtin `max` on two values. -/
def pyMax (a b : ℚ) : ℚ := if a ≤ b then b else a

/-- Python's `round` to an integer: round half to even (on the exact
rational values used here; binary-float representation noise is ignored,
and no value in this development sits at a representation boundary). -/
def pyRoundInt (q : ℚ) : ℤ :=
  let f := Rat.floor q
  let r := q - f
  if r < 1/2 then f
  else if 1/2 < r then f + 1
  else if f % 2 = 0 then f else f + 1

/-- Python's `round(q, 1)`. -/
def pyRound1 (q : ℚ) : ℚ := (pyRoundInt (q * 10) : ℚ) / 10

/-- The newline character. -/
def lfChar : Char := Char.ofNat 10

/-- Python's `str.split(sep)` for a one-character separator, on char
lists (structural, so that concrete runs evaluate inside the kernel):
`"".split(sep)` is `[""]`, and every occurrence of `sep` opens a new
piece. -/
def splitOnChar (sep : Char) (l : List Char) : List (List Char) :=
  l.foldr
    (fun c acc => if c = sep then [] :: acc else (c :: acc.headD []) :: acc.tail)
    [[]]

/-- Python's string slice `s[:n]` (first `n` code points). -/
def pyTake (s : String) (n : ℕ) : String := String.mk (s.data.take n)

/-- Comma-and-space join, as in Python's list `repr`. -/
def commaJoin : List String → String
  | [] => ""
  | [x] => x
  | x :: y :: xs => x ++ ", " ++ commaJoin (y :: xs)

/-- Python's `repr` of a list of ints, e.g. `[3, 17]`. -/
def fmtIntList (l : List Nat) : String :=
  "[" ++ commaJoin (l.map toString) ++ "]"

/-- One entry of `GradeResult.test_details` (`{name, status, message}`). -/
structure TestDetail where
  name : String
  status : String
  message : String
deriving DecidableEq, Repr

/-- The `GradeResult` dataclass.  `score`, `max_score` and
`execution_time` are Python floats, modelled as rationals; the test
counters are Python ints, modelled as integers; the `rubric` dict is a
key-ordered association list. -/
structure GradeResult where
  score : ℚ
  max_score : ℚ := 100
  passed : Bool := false
  passed_tests : ℤ := 0
  total_tests : ℤ := 0
  errors : List String := []
  warnings : List String := []
  suggestions : List String := []
  test_details : List TestDetail := []
  rubric : List (String × ℚ) := []
  diff_hints : List String := []
  execution_time : ℚ := 0
deriving DecidableEq, Repr

/-- The JSON object written to `grade.json`: the twelve keys emitted by
`GradeResult.to_dict`.  Each field is optional because `from_dict` reads
every key with `dict.get` and a default. -/
structure GradeDict where
  score : Option ℚ := none
  max_score : Option ℚ := none
  passed : Option Bool := none
  passed_tests : Option ℤ := none
  total_tests : Option ℤ := none
  errors : Option (List String) := none
  warnings : Option (List String) := none
  suggestions : Option (List String) := none
  test_details : Option (List TestDetail) := none
  rubric : Option (List (String × ℚ)) := none
  diff_hints : Option (List String) := none
  execution_time : Option ℚ := none
deriving DecidableEq, Repr

/-- `GradeResult.to_dict`: every field is emitted under its own key. -/
def GradeResult.to_dict (r : GradeResult) : GradeDict where
  score := some r.score
  max_score := some r.max_score
  passed := some r.passed
  passed_tests := some r.passed_tests
  total_tests := some r.total_tests
  errors := some r.errors
  warnings := some r.warnings
  suggestions := some r.suggestions
  test_details := some r.test_details
  rubric := some r.rubric
  diff_hints := some r.diff_hints
  execution_time := some r.execution_time

/-- `GradeResult.from_dict`: every key is read with `data.get(key, default)`,
the defaults being those of the dataclass. -/
def GradeResult.from_dict (d : GradeDict) : GradeResult where
  score := d.score.getD 0
  max_score := d.max_score.getD 100
  passed := d.passed.getD false
  passed_tests := d.passed_tests.getD 0
  total_tests := d.total_tests.getD 0
  errors := d.errors.getD []
  warnings := d.warnings.getD []
  suggestions := d.suggestions.getD []
  test_details := d.test_details.getD []
  rubric := d.rubric.getD []
  diff_hints := d.diff_hints.getD []
  execution_time := d.execution_time.getD 0

/-- The content of the `grade.json` artifact for one lab: `none` when the
file does not exist, `some d` when it holds the JSON object `d`. -/
abbrev GradeStore := Option GradeDict

/-- `Evaluator.save_grade`: writes `result.to_dict()` to `grade_path`
when the lab has one, a total overwrite; otherwise does nothing. -/
def save_grade (grade_path : Option String) (r : GradeResult) (st : GradeStore) : GradeStore :=
  match grade_path with
  | some _ => some r.to_dict
  | none => st

/-- `Evaluator.load_grade`: when the lab has a `grade_path` and the file
exists, reads it back with `from_dict` (a JSON object written by
`save_grade` always parses, so the `JSONDecodeError`/`KeyError` branch
which returns `None` is unreachable here); otherwise returns `None`. -/
def load_grade (grade_path : Option String) (st : GradeStore) : Option GradeResult :=
  match grade_path with
  | some _ =>
    match st with
    | some d => some (GradeResult.from_dict d)
    | none => none
  | none => none

/-- One entry of the `tests` array of a pytest `--json-report` document,
as consumed by `_parse_pytest_output`: the node id, the outcome string,
and the failure message already resolved as the source does
(`crash.get("message", call.get("longrepr", "Error desconocido"))`,
passed through `str`). -/
structure PyTest where
  nodeid : String
  outcome : String
  message : String
deriving DecidableEq, Repr

/-- The `(passed_tests, total_tests)` pair `_parse_pytest_output`
computes.  `jsonTests` abstracts the stdlib call `json.loads` on the
first stdout line whose strip starts with a brace: it is `some tests`
when that line parses to an object with a `tests` array, and `none`
when there is no such line or it is malformed (the `JSONDecodeError`
is swallowed and no further line is tried).  The loop over `tests`
bumps `total_tests` once per entry and `passed_tests` for a `passed`
outcome.  When no test was counted, the source falls back to the
regexes of the shape digits-then-" passed" / digits-then-" failed"
over stdout, guarded by `"passed" in stdout`; a missing "passed" match
leaves the count from the loop in place. -/
def parse_counts (jsonTests : Option (List PyTest)) (stdout : String) : ℤ × ℤ :=
  let tests := jsonTests.getD []
  let total0 : ℤ := tests.length
  let passed0 : ℤ := (tests.filter fun t => t.outcome = "passed").length
  if total0 = 0 then
    if pyIn "passed" stdout then
      let p : ℤ :=
        match searchNumBefore " passed".data stdout.data with
        | some n => (n : ℤ)
        | none => passed0
      match searchNumBefore " failed".data stdout.data with
      | some f => (p, p + (f : ℤ))
      | none => (p, p)
    else (passed0, total0)
  else (passed0, total0)

/-- The rest of `_parse_pytest_output`: error lines and test details from
the structured report, the counts from `parse_counts`, and the
percentage score with its 70-threshold verdict; the error list is
truncated to 10 entries here. -/
def parse_pytest_output (jsonTests : Option (List PyTest)) (stdout : String)
    (exec_time : ℚ) : GradeResult :=
  let tests := jsonTests.getD []
  let errors : List String :=
    (tests.filter fun t => ¬ t.outcome = "passed").map fun t =>
      t.nodeid ++ ": " ++ t.message
  let test_details : List TestDetail :=
    tests.map fun t =>
      if t.outcome = "passed" then ⟨t.nodeid, "passed", ""⟩
      else ⟨t.nodeid, t.outcome, pyTake t.message 500⟩
  let counts := parse_counts jsonTests stdout
  let passed_tests := counts.1
  let total_tests := counts.2
  let score : ℚ :=
    if total_tests > 0 then (passed_tests : ℚ) / (total_tests : ℚ) * 100 else 0
  { score := score
    passed := decide (score ≥ 70)
    passed_tests := passed_tests
    total_tests := total_tests
    errors := errors.take 10
    test_details := test_details
    execution_time := exec_time }

/-- The data `_run_unittest` reads off a completed
`unittest.TextTestRunner` run: `testsRun`, and the `(test, trace)`
pairs of `result.failures` and `result.errors`. -/
structure UnittestRun where
  testsRun : ℕ
  failures : List (String × String)
  errorList : List (String × String)
deriving DecidableEq, Repr

/-- How the unittest fallback terminates: either the runner completes
(with the wall-clock time elapsed at that point) or some step raises
(discovery, the runner itself, ...) with message `str(e)`. -/
inductive UnittestOutcome
  | ran (u : UnittestRun) (execution_time : ℚ)
  | exc (msg : String) (elapsed : ℚ)
deriving DecidableEq, Repr

/-- `PythonEvaluator._run_unittest` (the fallback runner).  On a
completed run: `passed = testsRun - len(failures) - len(errors)`, score
is the percentage, `passed` also requires `wasSuccessful()` (no failure
and no error), and one error line per failure/error entry with the
trace truncated to 200 characters — note: no truncation of the list
itself.  On an exception: score 0 and at most two error lines. -/
def run_unittest (o : UnittestOutcome) (previous_error : String) : GradeResult :=
  match o with
  | .ran u t =>
    let total_tests : ℤ := u.testsRun
    let passed_tests : ℤ := total_tests - u.failures.length - u.errorList.length
    let score : ℚ :=
      if total_tests > 0 then (passed_tests : ℚ) / (total_tests : ℚ) * 100 else 0
    let errors : List String :=
      (u.failures ++ u.errorList).map fun p => p.1 ++ ": " ++ pyTake p.2 200
    { score := score
      passed := decide (score ≥ 70) && decide (u.failures = [] ∧ u.errorList = [])
      passed_tests := passed_tests
      total_tests := total_tests
      errors := errors
      execution_time := t }
  | .exc msg elapsed =>
    { score := 0
      errors := (["Error ejecutando tests: " ++ msg, previous_error]).take 2
      execution_time := elapsed }

/-- The error message of the Python timeout branch,
`f"Timeout: los tests tardaron más de {self.timeout}s"`. -/
def pyTimeoutMsg (timeout : ℕ) : String :=
  "Timeout: los tests tardaron más de " ++ toString timeout ++ "s"

/-- How the pytest subprocess of `_run_tests`/`_run_pytest` terminates:
it times out, it completes (its stdout abstracted as in
`parse_pytest_output` plus elapsed time), or pytest is unavailable /
raises so that `_run_tests` falls back to `_run_unittest` with
`previous_error = str(e)`. -/
inductive RunOutcome
  | pytestTimeout (elapsed : ℚ)
  | pytestRan (jsonTests : Option (List PyTest)) (stdout : String) (exec_time : ℚ)
  | pytestUnavailable (err : String) (u : UnittestOutcome)
deriving DecidableEq, Repr

/-- `PythonEvaluator._run_tests` / `_run_pytest` combined, as a function
of how the subprocess behaves: a `TimeoutExpired` yields the zero-score
timeout result with elapsed wall time; a completed run is parsed; any
other exception falls through to the unittest runner. -/
def run_tests (o : RunOutcome) (timeout : ℕ) : GradeResult :=
  match o with
  | .pytestTimeout elapsed =>
    { score := 0
      errors := [pyTimeoutMsg timeout]
      execution_time := elapsed }
  | .pytestRan j s t => parse_pytest_output j s t
  | .pytestUnavailable e u => run_unittest u e

/-- A submission file as `_analyze_code` sees it: its `name` and the
result of `read_text` — `none` models a read failure, which the
source swallows, skipping the file. -/
structure PyFile where
  name : String
  content : Option String
deriving DecidableEq, Repr

/-- `PythonEvaluator._analyze_code` on one file: the docstring warning
when neither triple-quote marker occurs in the content, the long-line
warning listing up to three 1-based numbers of lines longer than 100
characters, and the two suggestions. -/
def analyzeFile (f : PyFile) : List String × List String :=
  match f.content with
  | none => ([], [])
  | some content =>
    let lines : List (List Char) := splitOnChar lfChar content.data
    let w1 : List String :=
      if ¬ pyIn dq3 content ∧ ¬ pyIn sq3 content then
        [f.name ++ ": Falta docstring"]
      else []
    let long_lines : List ℕ :=
      ((lines.enumFrom 1).filter fun p => p.2.length > 100).map fun p => p.1
    let w2 : List String :=
      if long_lines ≠ [] then
        [f.name ++ ": Líneas muy largas en: " ++ fmtIntList (long_lines.take 3)]
      else []
    let s1 : List String :=
      if lines.count "def ".data > 0 then
        [f.name ++ ": Asegúrate de que las funciones tengan una sola responsabilidad"]
      else []
    let importLines :=
      lines.filter fun l => "import ".data.isPrefixOf l || "from ".data.isPrefixOf l
    let s2 : List String :=
      if importLines.length > 10 then
        [f.name ++ ": Considera reducir el número de imports"]
      else []
    (w1 ++ w2, s1 ++ s2)

/-- `PythonEvaluator._analyze_code` over the submission files, in order. -/
def analyze_code (files : List PyFile) : List String × List String :=
  files.foldl
    (fun acc f =>
      let ws := analyzeFile f
      (acc.1 ++ ws.1, acc.2 ++ ws.2))
    ([], [])

/-- The `test_score` local of `_apply_rubric`: 70 points proportional
to the test pass rate, 0 when no test was counted. -/
def rubric_test_score (r : GradeResult) : ℚ :=
  if r.total_tests > 0 then (r.passed_tests : ℚ) / (r.total_tests : ℚ) * 70 else 0

/-- The `quality_penalty` local of `_apply_rubric`: 2 points per
warning, capped at 20. -/
def rubric_quality_penalty (r : GradeResult) : ℚ :=
  pyMin ((r.warnings.length : ℚ) * 2) 20

/-- The `final_score` local of `_apply_rubric`: the 70-point test part
plus the flat 30-point base-quality credit minus the penalty, clamped
below at 0. -/
def rubric_final_score (r : GradeResult) : ℚ :=
  pyMax 0 (rubric_test_score r + 30 - rubric_quality_penalty r)

/-- `PythonEvaluator._apply_rubric`: `score` is the final score rounded
to one decimal while `passed` compares the unrounded final score with
70; the breakdown is recorded in `rubric`; every other field of the
result is left unchanged. -/
def apply_rubric (r : GradeResult) : GradeResult :=
  { r with
    score := pyRound1 (rubric_final_score r)
    passed := decide (rubric_final_score r ≥ 70)
    rubric :=
      [("tests", pyRound1 (rubric_test_score r)), ("base_quality", 30),
       ("penalty", -(rubric_quality_penalty r)), ("final", pyRound1 (rubric_final_score r))] }

/-- The configuration-error message shared by both evaluators. -/
def cfgErrorMsg : String := "Lab mal configurado: falta submission_path o tests_path"

/-- The environment a `PythonEvaluator.evaluate` call runs in: whether
the lab's two input paths are set, the files `tests_path.rglob("test*.py")`
finds, the files `submission_path.rglob("*")` finds (with their
contents), how the test subprocess behaves, the configured timeout, and
the lab's `grade_path`. -/
structure PyLabEnv where
  submission_path_set : Bool
  tests_path_set : Bool
  test_files : List String
  submission_files : List PyFile
  run : RunOutcome
  timeout : ℕ := 30
  grade_path : Option String := none

/-- The intermediate result of the main path of
`PythonEvaluator.evaluate`: the run result with the code-analysis
warnings and suggestions appended, just before the rubric. -/
def python_prerubric (env : PyLabEnv) : GradeResult :=
  let result0 := run_tests env.run env.timeout
  let ws := analyze_code env.submission_files
  { result0 with
    warnings := result0.warnings ++ ws.1
    suggestions := result0.suggestions ++ ws.2 }

/-- The result the main path of `PythonEvaluator.evaluate` computes:
run the tests, append the code-analysis output, apply the rubric. -/
def python_graded (env : PyLabEnv) : GradeResult :=
  apply_rubric (python_prerubric env)

/-- `PythonEvaluator.evaluate`: the three pre-flight checks each return
a zero-score result immediately (before any subprocess and before any
write to `grade_path`); otherwise the graded result is computed and
persisted with `save_grade`. -/
def python_evaluate (env : PyLabEnv) (st : GradeStore) : GradeResult × GradeStore :=
  if ¬ (env.submission_path_set && env.tests_path_set) then
    ({ score := 0, errors := [cfgErrorMsg] }, st)
  else if env.test_files.isEmpty then
    ({ score := 0, errors := ["No se encontraron archivos de test"] }, st)
  else if env.submission_files.isEmpty then
    ({ score := 0, errors := ["La carpeta de entrega está vacía"] }, st)
  else
    (python_graded env, save_grade env.grade_path (python_graded env) st)

/-- `PythonEvaluator.evaluate` viewed through exceptions: the source
returns a `GradeResult` on every control path and contains no `raise`
(all subprocess failures are caught), so the embedding is total and the
exception view is always `ok`. -/
def python_evaluate_exc (env : PyLabEnv) (st : GradeStore) :
    Except String (GradeResult × GradeStore) :=
  Except.ok (python_evaluate env st)

/-- How far the JS evaluator's report-reading `try` block gets on the
last stdout line.  `noReport`: `stdout` is empty, `json.loads` fails, or
`int(data.get("passed", 0))` fails — nothing was assigned.
`truncatedReport p`: `passed_tests` was assigned `p` but
`int(data.get("total", passed_tests))` failed, so `total_tests` and
`passed` keep their prior values.  `report p t`: both conversions
succeeded, `p` being `passed` (default 0) and `t` being `total`
(default `p` when the key is absent), after which
`passed = (p == t and returncode == 0)`. -/
inductive JsParsed
  | noReport
  | truncatedReport (p : ℤ)
  | report (p t : ℤ)
deriving DecidableEq, Repr

/-- How the `node` subprocess of `JavaScriptEvaluator.evaluate`
terminates: `node` is absent (`FileNotFoundError`), the run times out,
or it completes with a return code, stripped stdout/stderr, and the
report extraction above. -/
inductive JsRunOutcome
  | nodeMissing
  | timedOut
  | completed (returncode : ℤ) (parsed : JsParsed) (stdoutStripped stderrStripped : String)
deriving DecidableEq, Repr

/-- The error message of the JS timeout branch,
`f"Timeout: más de {self.timeout}s ejecutando tests"`. -/
def jsTimeoutMsg (timeout : ℕ) : String :=
  "Timeout: más de " ++ toString timeout ++ "s ejecutando tests"

/-- The environment a `JavaScriptEvaluator.evaluate` call runs in:
whether the lab's two input paths are set, the files
`submission_path.rglob("*.js")` and `tests_path.rglob("test*.js")`
find, how the `node` subprocess behaves, the timeout, and `grade_path`. -/
structure JsLabEnv where
  submission_path_set : Bool
  tests_path_set : Bool
  submission_files : List String
  test_files : List String
  runResult : JsRunOutcome
  timeout : ℕ := 30
  grade_path : Option String := none

/-- The grade the completed-run branch of `JavaScriptEvaluator.evaluate`
builds: `passed` starts as `returncode == 0` and is re-derived from a
machine-readable report when the last stdout line carries one; score is
binary 100/0; on a non-pass the stripped stderr and stdout become error
entries, truncated to 5; the reported `total_tests` falls back (through
Python `or`-chaining on int truthiness) to `passed_tests` and then to
the number of test files. -/
def js_graded (test_files : List String) (rc : ℤ) (parsed : JsParsed)
    (stdoutS stderrS : String) : GradeResult :=
  let passed0 : Bool := decide (rc = 0)
  let ptp : ℤ × ℤ × Bool :=
    match parsed with
    | .noReport => (0, 0, passed0)
    | .truncatedReport p => (p, 0, passed0)
    | .report p t => (p, t, decide (p = t) && passed0)
  let passed_tests := ptp.1
  let total_tests := ptp.2.1
  let passed := ptp.2.2
  let errors : List String :=
    if !passed then
      (if stderrS ≠ "" then [stderrS] else []) ++
      (if stdoutS ≠ "" then [stdoutS] else [])
    else []
  { score := if passed then 100 else 0
    passed := passed
    passed_tests := passed_tests
    total_tests :=
      if total_tests ≠ 0 then total_tests
      else if passed_tests ≠ 0 then passed_tests
      else (test_files.length : ℤ)
    errors := errors.take 5 }

/-- `JavaScriptEvaluator.evaluate`: pre-flight checks, then the `node`
run on the first test file; a completed run is graded by `js_graded`
and the grade persisted before being returned. -/
def js_evaluate (env : JsLabEnv) (st : GradeStore) : GradeResult × GradeStore :=
  if ¬ (env.submission_path_set && env.tests_path_set) then
    ({ score := 0, errors := [cfgErrorMsg] }, st)
  else if env.submission_files.isEmpty then
    ({ score := 0, errors := ["No se encontraron archivos .js en la carpeta de entrega"] }, st)
  else if env.test_files.isEmpty then
    ({ score := 0, errors := ["No se encontraron archivos de test .js"] }, st)
  else
    match env.runResult with
    | .nodeMissing =>
      ({ score := 0, errors := ["Node.js no está instalado o no está en PATH"] }, st)
    | .timedOut =>
      ({ score := 0, errors := [jsTimeoutMsg env.timeout] }, st)
    | .completed rc parsed stdoutS stderrS =>
      let grade := js_graded env.test_files rc parsed stdoutS stderrS
      (grade, save_grade env.grade_path grade st)

/-- `JavaScriptEvaluator.evaluate` viewed through exceptions: as with
the Python evaluator, every control path returns a `GradeResult`. -/
def js_evaluate_exc (env : JsLabEnv) (st : GradeStore) :
    Except String (GradeResult × GradeStore) :=
  Except.ok (js_evaluate env st)

/-- A completed unittest run never reports more failure and error
entries than tests run (a test can in principle land in both lists when
its teardown also errors; this predicate excludes those runs). -/
def runWellCounted : RunOutcome → Prop
  | .pytestUnavailable _ (.ran u _) =>
    u.failures.length + u.errorList.length ≤ u.testsRun
  | _ => True

/-- The machine-readable report a JS test script prints is sane: a
nonnegative passed count, not exceeding the total when the total is
nonzero.  The source applies no such check. -/
def JsParsedOk : JsParsed → Prop
  | .report p t => 0 ≤ p ∧ (t ≠ 0 → p ≤ t)
  | .truncatedReport p => 0 ≤ p
  | .noReport => True

/-- `JsParsedOk` lifted to the run outcome. -/
def jsReportWellFormed : JsRunOutcome → Prop
  | .completed _ parsed _ _ => JsParsedOk parsed
  | _ => True

/-- Whether the run fell back to unittest and the runner completed —
the one path whose error list the source does not truncate. -/
def isUnittestRan : RunOutcome → Bool
  | .pytestUnavailable _ (.ran _ _) => true
  | _ => false

/-- A Python lab environment whose pre-flight checks pass and whose
pytest run reports 571 of 1000 tests passing through the textual
summary line, with a clean single-file submission. -/
def envRound : PyLabEnv where
  submission_path_set := true
  tests_path_set := true
  test_files := ["test_a.py"]
  submission_files := [⟨"a.py", some dq3⟩]
  run := .pytestRan none "571 passed, 429 failed" 1

/-- A JS lab environment whose test script exits 0 but prints the
report `{"passed": 5, "total": 3}` as its last stdout line. -/
def jenvBadReport : JsLabEnv where
  submission_path_set := true
  tests_path_set := true
  submission_files := ["a.js"]
  test_files := ["test_a.js"]
  runResult := .completed 0 (.report 5 3) "out" ""

/-- A Python lab environment whose pytest subprocess hits the 30 s
timeout after 31 s of wall time. -/
def envTimedOut : PyLabEnv where
  submission_path_set := true
  tests_path_set := true
  test_files := ["test_a.py"]
  submission_files := [⟨"a.py", some dq3⟩]
  run := .pytestTimeout 31

/-- A JS lab environment whose node subprocess hits the timeout. -/
def jenvTimedOut : JsLabEnv where
  submission_path_set := true
  tests_path_set := true
  submission_files := ["a.js"]
  test_files := ["test_a.js"]
  runResult := .timedOut

/-- A Python lab environment whose pytest run emits neither a JSON
report nor a recognizable summary line. -/
def envNoCounts : PyLabEnv where
  submission_path_set := true
  tests_path_set := true
  test_files := ["test_a.py"]
  submission_files := [⟨"a.py", some dq3⟩]
  run := .pytestRan none "" 1

/-- Six passing pytest entries. -/
def sixPassed : List PyTest :=
  (List.range 6).map fun i => ⟨"t" ++ toString i, "passed", ""⟩

/-- A Python lab environment with a two-file docstring-less submission
and six of six tests passing. -/
def envTwoFiles : PyLabEnv where
  submission_path_set := true
  tests_path_set := true
  test_files := ["test_a.py"]
  submission_files := [⟨"a.py", some "x = 1"⟩, ⟨"b.py", some "y = 2"⟩]
  run := .pytestRan (some sixPassed) "" 1

/-- A Python lab environment with no submission path configured. -/
def envUnset : PyLabEnv where
  submission_path_set := false
  tests_path_set := true
  test_files := ["test_a.py"]
  submission_files := [⟨"a.py", some dq3⟩]
  run := .pytestRan none "" 1

/-- A JS lab environment with no tests path configured. -/
def jenvUnset : JsLabEnv where
  submission_path_set := true
  tests_path_set := false
  submission_files := ["a.js"]
  test_files := ["test_a.js"]
  runResult := .completed 0 .noReport "" ""

/-- Eleven unittest failures. -/
def elevenFailures : List (String × String) :=
  (List.range 11).map fun i => ("f" ++ toString i, "boom")

/-- A Python lab environment where pytest is unavailable and the
unittest fallback completes with 11 of its 11 tests failing. -/
def envElevenFailures : PyLabEnv where
  submission_path_set := true
  tests_path_set := true
  test_files := ["test_a.py"]
  submission_files := [⟨"a.py", some dq3⟩]
  run := .pytestUnavailable "no pytest" (.ran ⟨11, elevenFailures, []⟩ 2)

/-- A Python lab environment whose pytest run completes normally with
one of two tests passing (used to instantiate universally quantified
statements). -/
def envOrdinary : PyLabEnv where
  submission_path_set := true
  tests_path_set := true
  test_files := ["test_a.py"]
  submission_files := [⟨"a.py", some dq3⟩]
  run := .pytestRan (some [⟨"t0", "passed", ""⟩, ⟨"t1", "failed", "AssertionError"⟩]) "" 1

/-- A JS lab environment whose test script exits 0 and prints the
report `{"passed": 4, "total": 4}`. -/
def jenvOrdinary : JsLabEnv where
  submission_path_set := true
  tests_path_set := true
  submission_files := ["a.js"]
  test_files := ["test_a.js"]
  runResult := .completed 0 (.report 4 4) "all good" ""

/-- A JS lab environment whose test script exits 0 printing no report. -/
def jenvSilent : JsLabEnv where
  submission_path_set := true
  tests_path_set := true
  submission_files := ["a.js"]
  test_files := ["test_a.js", "test_b.js"]
  runResult := .completed 0 .noReport "ok" ""

/-- An ordinary grade used to instantiate round-trip statements. -/
def sampleGrade : GradeResult where
  score := 843/10
  passed := true
  passed_tests := 5
  total_tests := 6
  errors := ["test_mod.py::test_edge: AssertionError"]
  warnings := ["mod.py: Falta docstring"]
  rubric := [("tests", 583/10), ("base_quality", 30), ("penalty", -2), ("final", 843/10)]
  execution_time := 123/100

/-! ### Helper lemmas -/

theorem ratFloor_eq (q : ℚ) : Rat.floor q = ⌊q⌋ := by
  rw [Rat.floor_def' q, Rat.floor_def]

theorem pyMin_eq (a b : ℚ) : pyMin a b = min a b := (min_def a b).symm

theorem pyMax_eq (a b : ℚ) : pyMax a b = max a b := (max_def a b).symm

theorem pyRoundInt_le (q : ℚ) : (pyRoundInt q : ℚ) ≤ q + 1/2 := by
  have h1 := Int.floor_le q
  have h2 := Int.lt_floor_add_one q
  simp only [pyRoundInt, ratFloor_eq]
  split_ifs <;> push_cast <;> linarith

theorem le_pyRoundInt (q : ℚ) : q - 1/2 ≤ (pyRoundInt q : ℚ) := by
  have h1 := Int.floor_le q
  have h2 := Int.lt_floor_add_one q
  simp only [pyRoundInt, ratFloor_eq]
  split_ifs <;> push_cast <;> linarith

theorem pyRound1_nonneg {q : ℚ} (h : 0 ≤ q) : 0 ≤ pyRound1 q := by
  unfold pyRound1
  have h1 := le_pyRoundInt (q * 10)
  have h2 : (-1 : ℤ) < pyRoundInt (q * 10) := by
    have : (-1 : ℚ) < (pyRoundInt (q * 10) : ℚ) := by linarith
    exact_mod_cast this
  have h3 : (0 : ℚ) ≤ (pyRoundInt (q * 10) : ℚ) := by exact_mod_cast h2
  positivity

theorem pyRound1_le_100 {q : ℚ} (h : q ≤ 100) : pyRound1 q ≤ 100 := by
  unfold pyRound1
  have h1 := pyRoundInt_le (q * 10)
  have h2 : pyRoundInt (q * 10) < 1001 := by
    have : (pyRoundInt (q * 10) : ℚ) < 1001 := by linarith
    exact_mod_cast this
  have h3 : (pyRoundInt (q * 10) : ℚ) ≤ 1000 := by
    have : pyRoundInt (q * 10) ≤ 1000 := by omega
    exact_mod_cast this
  linarith

theorem pyRound1_intCast (n : ℤ) : pyRound1 (n : ℚ) = (n : ℚ) := by
  unfold pyRound1 pyRoundInt
  have h : ((n : ℚ) * 10) = ((n * 10 : ℤ) : ℚ) := by push_cast; ring
  rw [h, ratFloor_eq, Int.floor_intCast]
  norm_num

theorem pyRound1_zero : pyRound1 0 = 0 := by
  have := pyRound1_intCast 0
  simpa using this

theorem rubric_test_score_nonneg {r : GradeResult} (h : 0 ≤ r.passed_tests) :
    0 ≤ rubric_test_score r := by
  unfold rubric_test_score
  split_ifs with ht
  · have h1 : (0 : ℚ) ≤ (r.passed_tests : ℚ) := by exact_mod_cast h
    have h2 : (0 : ℚ) < (r.total_tests : ℚ) := by exact_mod_cast ht
    positivity
  · exact le_refl 0

theorem rubric_test_score_le {r : GradeResult} (h : r.passed_tests ≤ r.total_tests) :
    rubric_test_score r ≤ 70 := by
  unfold rubric_test_score
  split_ifs with ht
  · have h2 : (0 : ℚ) < (r.total_tests : ℚ) := by exact_mod_cast ht
    have h1 : (r.passed_tests : ℚ) ≤ (r.total_tests : ℚ) := by exact_mod_cast h
    have h3 : (r.passed_tests : ℚ) / (r.total_tests : ℚ) ≤ 1 := (div_le_one h2).2 h1
    nlinarith
  · norm_num

theorem rubric_quality_penalty_nonneg (r : GradeResult) : 0 ≤ rubric_quality_penalty r := by
  rw [rubric_quality_penalty, pyMin_eq]
  exact le_min (by positivity) (by norm_num)

theorem rubric_final_score_nonneg (r : GradeResult) : 0 ≤ rubric_final_score r := by
  rw [rubric_final_score, pyMax_eq]
  exact le_max_left 0 _

theorem rubric_final_score_le_100 {r : GradeResult} (h : r.passed_tests ≤ r.total_tests) :
    rubric_final_score r ≤ 100 := by
  rw [rubric_final_score, pyMax_eq]
  have h1 := rubric_test_score_le h
  have h2 := rubric_quality_penalty_nonneg r
  exact max_le (by norm_num) (by linarith)

theorem parse_counts_nonneg (j : Option (List PyTest)) (s : String) :
    0 ≤ (parse_counts j s).1 ∧ (parse_counts j s).1 ≤ (parse_counts j s).2 := by
  have hlen := List.length_filter_le (fun t => decide (t.outcome = "passed")) (j.getD [])
  simp only [parse_counts]
  split_ifs with h0 hp
  · have htests : j.getD [] = [] := List.eq_nil_of_length_eq_zero (by exact_mod_cast h0)
    rcases hps : searchNumBefore " passed".data s.data with _ | n <;>
      rcases hf : searchNumBefore " failed".data s.data with _ | f <;>
        simp [htests, hps, hf] <;> omega
  · have htests : j.getD [] = [] := List.eq_nil_of_length_eq_zero (by exact_mod_cast h0)
    simp [htests]
  · dsimp only
    constructor
    · positivity
    · exact_mod_cast hlen

theorem run_tests_counts (o : RunOutcome) (timeout : ℕ) (h : runWellCounted o) :
    0 ≤ (run_tests o timeout).passed_tests ∧
      (run_tests o timeout).passed_tests ≤ (run_tests o timeout).total_tests := by
  cases o with
  | pytestTimeout e => exact ⟨le_refl 0, le_refl 0⟩
  | pytestRan j s t => exact parse_counts_nonneg j s
  | pytestUnavailable e u =>
    cases u with
    | ran ur t =>
      simp only [runWellCounted] at h
      simp only [run_tests, run_unittest]
      constructor <;> omega
    | exc m el => exact ⟨le_refl 0, le_refl 0⟩

theorem run_tests_max_score (o : RunOutcome) (timeout : ℕ) :
    (run_tests o timeout).max_score = 100 := by
  cases o with
  | pytestTimeout e => rfl
  | pytestRan j s t => rfl
  | pytestUnavailable e u => cases u <;> rfl

theorem python_prerubric_counts (env : PyLabEnv) :
    (python_prerubric env).passed_tests = (run_tests env.run env.timeout).passed_tests ∧
      (python_prerubric env).total_tests = (run_tests env.run env.timeout).total_tests ∧
      (python_prerubric env).errors = (run_tests env.run env.timeout).errors ∧
      (python_prerubric env).execution_time = (run_tests env.run env.timeout).execution_time ∧
      (python_prerubric env).max_score = (run_tests env.run env.timeout).max_score :=
  ⟨rfl, rfl, rfl, rfl, rfl⟩

theorem python_graded_fields (env : PyLabEnv) :
    (python_graded env).passed_tests = (run_tests env.run env.timeout).passed_tests ∧
      (python_graded env).total_tests = (run_tests env.run env.timeout).total_tests ∧
      (python_graded env).errors = (run_tests env.run env.timeout).errors ∧
      (python_graded env).execution_time = (run_tests env.run env.timeout).execution_time ∧
      (python_graded env).max_score = (run_tests env.run env.timeout).max_score :=
  ⟨rfl, rfl, rfl, rfl, rfl⟩

theorem python_graded_score (env : PyLabEnv) :
    (python_graded env).score = pyRound1 (rubric_final_score (python_prerubric env)) ∧
      (python_graded env).passed = decide (rubric_final_score (python_prerubric env) ≥ 70) :=
  ⟨rfl, rfl⟩

theorem python_evaluate_main (env : PyLabEnv) (st : GradeStore)
    (h1 : env.submission_path_set = true) (h2 : env.tests_path_set = true)
    (h3 : env.test_files.isEmpty = false) (h4 : env.submission_files.isEmpty = false) :
    python_evaluate env st =
      (python_graded env, save_grade env.grade_path (python_graded env) st) := by
  simp [python_evaluate, h1, h2, h3, h4]

/-! ### Claim C1 -/

/-- C1: the rubric scorer computes
`test_score = (passed_tests / total_tests) * 70` when `total_tests > 0`
and `0` otherwise, `quality_penalty = min(len(warnings) * 2, 20)`,
`final_score = max(0, test_score + 30 - quality_penalty)` (the stored
score being this value rounded to one decimal, and the breakdown being
recorded in the rubric), and `passed = (final_score >= 70.0)`; in
particular a result with zero passed tests and zero warnings gets
score 30. -/
theorem rubric_scorer_formula (r : GradeResult) :
    (apply_rubric r).score =
        pyRound1 (max 0
          ((if r.total_tests > 0 then (r.passed_tests : ℚ) / (r.total_tests : ℚ) * 70 else 0)
            + 30 - min ((r.warnings.length : ℚ) * 2) 20)) ∧
      (apply_rubric r).passed =
        decide (max 0
          ((if r.total_tests > 0 then (r.passed_tests : ℚ) / (r.total_tests : ℚ) * 70 else 0)
            + 30 - min ((r.warnings.length : ℚ) * 2) 20) ≥ 70) ∧
      (apply_rubric r).rubric =
        [("tests", pyRound1
            (if r.total_tests > 0 then (r.passed_tests : ℚ) / (r.total_tests : ℚ) * 70 else 0)),
         ("base_quality", 30),
         ("penalty", -(min ((r.warnings.length : ℚ) * 2) 20)),
         ("final", (apply_rubric r).score)] ∧
      (r.passed_tests = 0 → r.warnings = [] → (apply_rubric r).score = 30) := by
  have hts : rubric_test_score r =
      (if r.total_tests > 0 then (r.passed_tests : ℚ) / (r.total_tests : ℚ) * 70 else 0) := rfl
  have hqp : rubric_quality_penalty r = min ((r.warnings.length : ℚ) * 2) 20 := by
    rw [rubric_quality_penalty, pyMin_eq]
  have hfs : rubric_final_score r =
      max 0 (rubric_test_score r + 30 - rubric_quality_penalty r) := by
    rw [rubric_final_score, pyMax_eq]
  refine ⟨?_, ?_, ?_, ?_⟩
  · show pyRound1 (rubric_final_score r) = _
    rw [hfs, hqp, hts]
  · show decide (rubric_final_score r ≥ 70) = _
    rw [hfs, hqp, hts]
  · show [("tests", pyRound1 (rubric_test_score r)), ("base_quality", 30),
      ("penalty", -(rubric_quality_penalty r)), ("final", pyRound1 (rubric_final_score r))] = _
    rw [hts, hqp]
    rfl
  · intro hp hw
    show pyRound1 (rubric_final_score r) = 30
    have h0 : rubric_test_score r = 0 := by
      rw [rubric_test_score]
      split_ifs with h
      · rw [hp]; simp
      · rfl
    have hq0 : rubric_quality_penalty r = 0 := by
      rw [hqp, hw]; norm_num
    rw [hfs, h0, hq0]
    have harg : max (0 : ℚ) (0 + 30 - 0) = 30 := by norm_num
    rw [harg]
    exact_mod_cast pyRound1_intCast 30

/-- Application of `rubric_scorer_formula` at a concrete result with
zero passed tests and no warnings: the rubric leaves it at score 30. -/
theorem rubric_scorer_formula_application :
    (apply_rubric { score := 0, total_tests := 5 }).score = 30 :=
  (rubric_scorer_formula { score := 0, total_tests := 5 }).2.2.2 rfl rfl

/-! ### Claim C2 -/

theorem js_graded_invariants (tf : List String) (rc : ℤ) (parsed : JsParsed)
    (so se : String) (h : JsParsedOk parsed) :
    0 ≤ (js_graded tf rc parsed so se).score ∧
      (js_graded tf rc parsed so se).score ≤ (js_graded tf rc parsed so se).max_score ∧
      0 ≤ (js_graded tf rc parsed so se).passed_tests ∧
      (js_graded tf rc parsed so se).passed_tests ≤ (js_graded tf rc parsed so se).total_tests ∧
      (js_graded tf rc parsed so se).passed =
        decide ((js_graded tf rc parsed so se).score ≥ 70) := by
  cases parsed with
  | noReport =>
    by_cases hrc : rc = 0 <;>
      simp [js_graded, hrc] <;>
      norm_num <;>
      positivity
  | truncatedReport p =>
    simp only [JsParsedOk] at h
    by_cases hrc : rc = 0 <;> by_cases hp : p = 0 <;>
      simp [js_graded, hrc, hp] <;>
      norm_num <;>
      first
        | positivity
        | omega
  | report p t =>
    simp only [JsParsedOk] at h
    by_cases hrc : rc = 0 <;> by_cases hpt : p = t <;> by_cases ht : t = 0 <;>
      by_cases hp : p = 0 <;>
      simp [js_graded, hrc, hpt, ht, hp] <;>
      norm_num <;>
      first
        | positivity
        | omega
        | (exact h.2 ht)
        | simp_all

unseal Rat.mul Rat.add Rat.sub Rat.inv in
/-- C2, counterexample to the claim as stated: with 571 of 1000 tests
passing and no warnings the unrounded final score is 69.97, so `passed`
is false while the stored (rounded to one decimal) score is 70.0 —
`passed` disagrees with `score >= 70.0`; and a JS test script exiting 0
while printing the report with passed 5 and total 3 yields a
`GradeResult` with `passed_tests > total_tests`. -/
theorem grade_invariants_violation :
    ((python_evaluate envRound none).1.passed = false ∧
      70 ≤ (python_evaluate envRound none).1.score) ∧
    (js_evaluate jenvBadReport none).1.total_tests <
      (js_evaluate jenvBadReport none).1.passed_tests := by
  decide

/-- C2 amended: every `GradeResult` an evaluation produces satisfies
`0 ≤ score ≤ max_score`.  For the Python evaluator
`passed_tests ≤ total_tests` always holds, `0 ≤ passed_tests` holds
provided the unittest fallback reports at most `testsRun`
failure-plus-error entries, and `passed` is computed from the
pre-rounding rubric score `f` with `score = round(f, 1)` — so
`passed == (score >= 70.0)` can fail at rounding boundaries.  For the
JavaScript evaluator `passed == (score >= 70.0)` always holds, and
`0 ≤ passed_tests ≤ total_tests` holds provided the printed report
(when one exists) carries a nonnegative passed count not exceeding a
nonzero total. -/
theorem grade_invariants_amended (penv : PyLabEnv) (pst : GradeStore)
    (jenv : JsLabEnv) (jst : GradeStore)
    (hwell : runWellCounted penv.run) (hrep : jsReportWellFormed jenv.runResult) :
    (0 ≤ (python_evaluate penv pst).1.score ∧
      (python_evaluate penv pst).1.score ≤ (python_evaluate penv pst).1.max_score ∧
      0 ≤ (python_evaluate penv pst).1.passed_tests ∧
      (python_evaluate penv pst).1.passed_tests ≤ (python_evaluate penv pst).1.total_tests ∧
      ∃ f : ℚ, (python_evaluate penv pst).1.score = pyRound1 f ∧
        (python_evaluate penv pst).1.passed = decide (f ≥ 70)) ∧
    (0 ≤ (js_evaluate jenv jst).1.score ∧
      (js_evaluate jenv jst).1.score ≤ (js_evaluate jenv jst).1.max_score ∧
      0 ≤ (js_evaluate jenv jst).1.passed_tests ∧
      (js_evaluate jenv jst).1.passed_tests ≤ (js_evaluate jenv jst).1.total_tests ∧
      (js_evaluate jenv jst).1.passed = decide ((js_evaluate jenv jst).1.score ≥ 70)) := by
  constructor
  · rw [python_evaluate]
    split_ifs with g1 g2 g3 <;>
      first
      | exact ⟨le_refl 0, by norm_num, le_refl 0, le_refl 0,
          0, pyRound1_zero.symm, (decide_eq_false (by norm_num)).symm⟩
      | skip
    dsimp only
    have hcounts := run_tests_counts penv.run penv.timeout hwell
    have hpt : (python_graded penv).passed_tests =
        (run_tests penv.run penv.timeout).passed_tests := rfl
    have htt : (python_graded penv).total_tests =
        (run_tests penv.run penv.timeout).total_tests := rfl
    have hms : (python_graded penv).max_score = 100 := by
      have e : (python_graded penv).max_score =
          (run_tests penv.run penv.timeout).max_score := rfl
      rw [e, run_tests_max_score]
    have hple : (python_prerubric penv).passed_tests ≤ (python_prerubric penv).total_tests := by
      show (run_tests penv.run penv.timeout).passed_tests ≤
        (run_tests penv.run penv.timeout).total_tests
      exact hcounts.2
    refine ⟨?_, ?_, ?_, ?_, ?_⟩
    · exact pyRound1_nonneg (rubric_final_score_nonneg (python_prerubric penv))
    · rw [hms]
      exact pyRound1_le_100 (rubric_final_score_le_100 hple)
    · rw [hpt]
      exact hcounts.1
    · rw [hpt, htt]
      exact hcounts.2
    · exact ⟨rubric_final_score (python_prerubric penv), rfl, rfl⟩
  · rw [js_evaluate]
    split_ifs with g1 g2 g3 <;>
      first
      | exact ⟨le_refl 0, by norm_num, le_refl 0, le_refl 0,
          (decide_eq_false (by norm_num)).symm⟩
      | skip
    cases hrun : jenv.runResult with
    | nodeMissing =>
      exact ⟨le_refl 0, by norm_num, le_refl 0, le_refl 0,
        (decide_eq_false (by norm_num)).symm⟩
    | timedOut =>
      exact ⟨le_refl 0, by norm_num, le_refl 0, le_refl 0,
        (decide_eq_false (by norm_num)).symm⟩
    | completed rc parsed so se =>
      rw [hrun] at hrep
      simp only [jsReportWellFormed] at hrep
      exact js_graded_invariants jenv.test_files rc parsed so se hrep

/-- Application of `grade_invariants_amended` at an ordinary Python run
(one of two tests passing) and an ordinary JS run (report 4 of 4). -/
theorem grade_invariants_amended_application :
    (0 ≤ (python_evaluate envOrdinary none).1.score ∧
      (python_evaluate envOrdinary none).1.score ≤
        (python_evaluate envOrdinary none).1.max_score ∧
      0 ≤ (python_evaluate envOrdinary none).1.passed_tests ∧
      (python_evaluate envOrdinary none).1.passed_tests ≤
        (python_evaluate envOrdinary none).1.total_tests ∧
      ∃ f : ℚ, (python_evaluate envOrdinary none).1.score = pyRound1 f ∧
        (python_evaluate envOrdinary none).1.passed = decide (f ≥ 70)) ∧
    (0 ≤ (js_evaluate jenvOrdinary none).1.score ∧
      (js_evaluate jenvOrdinary none).1.score ≤
        (js_evaluate jenvOrdinary none).1.max_score ∧
      0 ≤ (js_evaluate jenvOrdinary none).1.passed_tests ∧
      (js_evaluate jenvOrdinary none).1.passed_tests ≤
        (js_evaluate jenvOrdinary none).1.total_tests ∧
      (js_evaluate jenvOrdinary none).1.passed =
        decide ((js_evaluate jenvOrdinary none).1.score ≥ 70)) :=
  grade_invariants_amended envOrdinary none jenvOrdinary none trivial
    ⟨by norm_num, fun _ => by norm_num⟩

/-! ### Claim C3 -/

unseal Rat.mul Rat.add Rat.sub Rat.inv in
/-- C3, counterexample to the claim as stated: on a pytest timeout the
Python `evaluate` does not return score 0 — the rubric is applied to
the timeout result afterwards, granting the flat 30-point base-quality
credit; and the JavaScript `evaluate` on a timeout leaves
`execution_time` at 0 rather than the elapsed wall-clock time. -/
theorem timeout_claim_violation :
    (python_evaluate envTimedOut none).1.score = 30 ∧
      ¬(python_evaluate envTimedOut none).1.score = 0 ∧
      (js_evaluate jenvTimedOut none).1.score = 0 ∧
      (js_evaluate jenvTimedOut none).1.execution_time = 0 := by
  decide

/-- C3 amended: on a timeout the runner's result has score 0, `passed`
false, exactly one error entry naming the timeout duration and
`execution_time` set to the elapsed wall time, and the run is not
retried (the result is a function of the single run outcome); the
Python `evaluate` then rescored it through the rubric, so the returned
score is `round(max(0, 30 - quality_penalty), 1)` (up to 30) while
`passed` stays false and the single timeout error and the elapsed
`execution_time` survive; the JavaScript `evaluate` returns score 0
and the single timeout error but leaves `execution_time` at 0. -/
theorem timeout_rescored_by_rubric (env : PyLabEnv) (st : GradeStore) (elapsed : ℚ)
    (h1 : env.submission_path_set = true) (h2 : env.tests_path_set = true)
    (h3 : env.test_files.isEmpty = false) (h4 : env.submission_files.isEmpty = false)
    (hr : env.run = .pytestTimeout elapsed)
    (jenv : JsLabEnv) (jst : GradeStore)
    (j1 : jenv.submission_path_set = true) (j2 : jenv.tests_path_set = true)
    (j3 : jenv.submission_files.isEmpty = false) (j4 : jenv.test_files.isEmpty = false)
    (jr : jenv.runResult = .timedOut) :
    ((run_tests env.run env.timeout).score = 0 ∧
      (run_tests env.run env.timeout).passed = false ∧
      (run_tests env.run env.timeout).errors = [pyTimeoutMsg env.timeout] ∧
      (run_tests env.run env.timeout).execution_time = elapsed ∧
      (python_evaluate env st).1.passed = false ∧
      (python_evaluate env st).1.errors = [pyTimeoutMsg env.timeout] ∧
      (python_evaluate env st).1.execution_time = elapsed ∧
      (python_evaluate env st).1.score =
        pyRound1 (max 0
          (30 - min (((analyze_code env.submission_files).1.length : ℚ) * 2) 20))) ∧
    ((js_evaluate jenv jst).1.score = 0 ∧ (js_evaluate jenv jst).1.passed = false ∧
      (js_evaluate jenv jst).1.errors = [jsTimeoutMsg jenv.timeout] ∧
      (js_evaluate jenv jst).1.execution_time = 0) := by
  have hm : 0 ≤ min (((analyze_code env.submission_files).1.length : ℚ) * 2) 20 :=
    le_min (by positivity) (by norm_num)
  have hw : (python_prerubric env).warnings = (analyze_code env.submission_files).1 := by
    show (run_tests env.run env.timeout).warnings ++ (analyze_code env.submission_files).1 = _
    rw [hr]
    exact List.nil_append _
  have htt : (python_prerubric env).total_tests = 0 := by
    show (run_tests env.run env.timeout).total_tests = 0
    rw [hr]
    rfl
  have hts : rubric_test_score (python_prerubric env) = 0 := by
    rw [rubric_test_score, htt]
    norm_num
  have hqp : rubric_quality_penalty (python_prerubric env) =
      min (((analyze_code env.submission_files).1.length : ℚ) * 2) 20 := by
    rw [rubric_quality_penalty, pyMin_eq, hw]
  have hfs : rubric_final_score (python_prerubric env) =
      max 0 (30 - min (((analyze_code env.submission_files).1.length : ℚ) * 2) 20) := by
    rw [rubric_final_score, pyMax_eq, hts, hqp]
    norm_num
  rw [python_evaluate_main env st h1 h2 h3 h4]
  dsimp only
  refine ⟨⟨by rw [hr]; rfl, by rw [hr]; rfl, by rw [hr]; rfl, by rw [hr]; rfl, ?_, ?_, ?_, ?_⟩, ?_⟩
  · show decide (rubric_final_score (python_prerubric env) ≥ 70) = false
    apply decide_eq_false
    rw [hfs]
    intro hge
    have hle : max 0
        (30 - min (((analyze_code env.submission_files).1.length : ℚ) * 2) 20) ≤ 30 :=
      max_le (by norm_num) (by linarith)
    linarith
  · show (run_tests env.run env.timeout).errors = _
    rw [hr]
    rfl
  · show (run_tests env.run env.timeout).execution_time = _
    rw [hr]
    rfl
  · show pyRound1 (rubric_final_score (python_prerubric env)) = _
    rw [hfs]
  · have hJ : js_evaluate jenv jst =
        ({ score := 0, errors := [jsTimeoutMsg jenv.timeout] }, jst) := by
      rw [js_evaluate]
      simp [j1, j2, j3, j4, jr]
    rw [hJ]
    exact ⟨rfl, rfl, rfl, rfl⟩

/-- Application of `timeout_rescored_by_rubric` at concrete labs whose
test run times out after 31 seconds. -/
theorem timeout_rescored_by_rubric_application :
    ((run_tests envTimedOut.run envTimedOut.timeout).score = 0 ∧
      (run_tests envTimedOut.run envTimedOut.timeout).passed = false ∧
      (run_tests envTimedOut.run envTimedOut.timeout).errors = [pyTimeoutMsg envTimedOut.timeout] ∧
      (run_tests envTimedOut.run envTimedOut.timeout).execution_time = 31 ∧
      (python_evaluate envTimedOut none).1.passed = false ∧
      (python_evaluate envTimedOut none).1.errors = [pyTimeoutMsg envTimedOut.timeout] ∧
      (python_evaluate envTimedOut none).1.execution_time = 31 ∧
      (python_evaluate envTimedOut none).1.score =
        pyRound1 (max 0
          (30 - min (((analyze_code envTimedOut.submission_files).1.length : ℚ) * 2) 20))) ∧
    ((js_evaluate jenvTimedOut none).1.score = 0 ∧
      (js_evaluate jenvTimedOut none).1.passed = false ∧
      (js_evaluate jenvTimedOut none).1.errors = [jsTimeoutMsg jenvTimedOut.timeout] ∧
      (js_evaluate jenvTimedOut none).1.execution_time = 0) :=
  timeout_rescored_by_rubric envTimedOut none 31 rfl rfl rfl rfl rfl
    jenvTimedOut none rfl rfl rfl rfl rfl

/-! ### Claim C4 -/

unseal Rat.mul Rat.add Rat.sub Rat.inv in
/-- C4, counterexample to the claim as stated: when neither the JSON
report nor the summary-line heuristic yields a test count,
`total_tests` is indeed 0, but the final score returned for the
evaluation is 30 (the rubric's base-quality credit), not 0. -/
theorem no_test_count_claim_violation :
    (python_evaluate envNoCounts none).1.total_tests = 0 ∧
      (python_evaluate envNoCounts none).1.score = 30 ∧
      ¬(python_evaluate envNoCounts none).1.score = 0 := by
  decide

/-- C4 amended: when the structured report carries no tests and the
summary regexes match nothing, the parser stage leaves `total_tests` at
0 and its own score at 0, and the evaluation's final result keeps
`total_tests = 0` but scores `round(max(0, 30 - quality_penalty), 1)`
— the rubric's flat base-quality credit minus warning penalties, not
0. -/
theorem no_test_count_base_credit (env : PyLabEnv) (st : GradeStore)
    (j : Option (List PyTest)) (s : String) (t : ℚ)
    (h1 : env.submission_path_set = true) (h2 : env.tests_path_set = true)
    (h3 : env.test_files.isEmpty = false) (h4 : env.submission_files.isEmpty = false)
    (hr : env.run = .pytestRan j s t)
    (hj : j = none ∨ j = some [])
    (hps : searchNumBefore " passed".data s.data = none)
    (hf : searchNumBefore " failed".data s.data = none) :
    (parse_pytest_output j s t).total_tests = 0 ∧
      (parse_pytest_output j s t).score = 0 ∧
      (python_evaluate env st).1.total_tests = 0 ∧
      (python_evaluate env st).1.score =
        pyRound1 (max 0
          (30 - min (((analyze_code env.submission_files).1.length : ℚ) * 2) 20)) := by
  have htests : j.getD [] = [] := by rcases hj with rfl | rfl <;> rfl
  have hc : parse_counts j s = (0, 0) := by
    by_cases hpi : pyIn "passed" s <;>
      simp [parse_counts, htests, hps, hf, hpi]
  have hPt : (parse_pytest_output j s t).total_tests = 0 := by
    show (parse_counts j s).2 = 0
    rw [hc]
  have hPs : (parse_pytest_output j s t).score = 0 := by
    simp only [parse_pytest_output, hc]
    norm_num
  have hw : (python_prerubric env).warnings = (analyze_code env.submission_files).1 := by
    show (run_tests env.run env.timeout).warnings ++ (analyze_code env.submission_files).1 = _
    rw [hr]
    exact List.nil_append _
  have htt : (python_prerubric env).total_tests = 0 := by
    show (run_tests env.run env.timeout).total_tests = 0
    rw [hr]
    exact hPt
  have hts : rubric_test_score (python_prerubric env) = 0 := by
    rw [rubric_test_score, htt]
    norm_num
  have hqp : rubric_quality_penalty (python_prerubric env) =
      min (((analyze_code env.submission_files).1.length : ℚ) * 2) 20 := by
    rw [rubric_quality_penalty, pyMin_eq, hw]
  have hfs : rubric_final_score (python_prerubric env) =
      max 0 (30 - min (((analyze_code env.submission_files).1.length : ℚ) * 2) 20) := by
    rw [rubric_final_score, pyMax_eq, hts, hqp]
    norm_num
  rw [python_evaluate_main env st h1 h2 h3 h4]
  dsimp only
  refine ⟨hPt, hPs, ?_, ?_⟩
  · show (python_prerubric env).total_tests = 0
    exact htt
  · show pyRound1 (rubric_final_score (python_prerubric env)) = _
    rw [hfs]

/-- Application of `no_test_count_base_credit` at a concrete lab whose
pytest run prints nothing usable. -/
theorem no_test_count_base_credit_application :
    (parse_pytest_output none "" 1).total_tests = 0 ∧
      (parse_pytest_output none "" 1).score = 0 ∧
      (python_evaluate envNoCounts none).1.total_tests = 0 ∧
      (python_evaluate envNoCounts none).1.score =
        pyRound1 (max 0
          (30 - min (((analyze_code envNoCounts.submission_files).1.length : ℚ) * 2) 20)) :=
  no_test_count_base_credit envNoCounts none none "" 1 rfl rfl rfl rfl rfl
    (Or.inl rfl) rfl rfl

/-! ### Claim C5 -/

unseal Rat.mul Rat.add Rat.sub Rat.inv in
/-- C5, counterexample to the claim as stated: a submission of 2 files
with no docstrings and 6 of 6 tests passing gets one missing-docstring
warning per file, so `quality_penalty = 4` (not 2) and the final score
is 96 (not 98): the recorded rubric shows penalty −4. -/
theorem two_files_claim_violation :
    (python_evaluate envTwoFiles none).1.score = 96 ∧
      ¬(python_evaluate envTwoFiles none).1.score = 98 ∧
      (python_evaluate envTwoFiles none).1.passed = true ∧
      (python_evaluate envTwoFiles none).1.rubric =
        [("tests", 70), ("base_quality", 30), ("penalty", -4), ("final", 96)] := by
  decide

/-- C5 amended: for a submission of 2 readable files, each containing
no docstring marker and no line longer than 100 characters, with 6 of
6 tests passing, evaluation yields `test_score = 70`,
`quality_penalty = 4` (one missing-docstring warning per file, 2
points each), final score `70 + 30 - 4 = 96` (within the 0–100 range
by construction), and `passed = true`. -/
theorem two_files_six_tests_scenario (env : PyLabEnv) (st : GradeStore)
    (n1 c1 n2 c2 : String) (l : List PyTest) (s : String) (t : ℚ)
    (h1 : env.submission_path_set = true) (h2 : env.tests_path_set = true)
    (h3 : env.test_files.isEmpty = false)
    (hsub : env.submission_files = [⟨n1, some c1⟩, ⟨n2, some c2⟩])
    (hr : env.run = .pytestRan (some l) s t)
    (hlen : l.length = 6) (hall : ∀ x ∈ l, x.outcome = "passed")
    (hd1 : pyIn dq3 c1 = false) (hq1 : pyIn sq3 c1 = false)
    (hd2 : pyIn dq3 c2 = false) (hq2 : pyIn sq3 c2 = false)
    (hline1 : ∀ ln ∈ splitOnChar lfChar c1.data, ln.length ≤ 100)
    (hline2 : ∀ ln ∈ splitOnChar lfChar c2.data, ln.length ≤ 100) :
    (python_evaluate env st).1.score = 96 ∧
      (python_evaluate env st).1.passed = true ∧
      (python_evaluate env st).1.rubric =
        [("tests", 70), ("base_quality", 30), ("penalty", -4), ("final", 96)] := by
  have h4 : env.submission_files.isEmpty = false := by rw [hsub]; rfl
  have hfil : l.filter (fun x => decide (x.outcome = "passed")) = l :=
    List.filter_eq_self.mpr fun a ha => by simp [hall a ha]
  have hc : parse_counts (some l) s = (6, 6) := by
    simp [parse_counts, hlen, hfil]
  have hwf : ∀ (n c : String), pyIn dq3 c = false → pyIn sq3 c = false →
      (∀ ln ∈ splitOnChar lfChar c.data, ln.length ≤ 100) →
      (analyzeFile ⟨n, some c⟩).1 = [n ++ ": Falta docstring"] := by
    intro n c hd hq hline
    have hll : ((splitOnChar lfChar c.data).enumFrom 1).filter
        (fun p => decide (p.2.length > 100)) = [] := by
      apply List.filter_eq_nil_iff.mpr
      rintro ⟨i, ln⟩ ha
      have hm := List.mem_enumFrom ha
      have hlt : i - 1 < (splitOnChar lfChar c.data).length := by omega
      have hln : ln ∈ splitOnChar lfChar c.data := by
        rw [hm.2.2]
        exact (splitOnChar lfChar c.data).getElem_mem hlt
      have := hline ln hln
      simp
      omega
    simp [analyzeFile, hd, hq, hll]
  have hwlen : ((analyze_code env.submission_files).1).length = 2 := by
    rw [hsub]
    show (([] ++ (analyzeFile ⟨n1, some c1⟩).1) ++ (analyzeFile ⟨n2, some c2⟩).1).length = 2
    rw [hwf n1 c1 hd1 hq1 hline1, hwf n2 c2 hd2 hq2 hline2]
    rfl
  have htt : (python_prerubric env).total_tests = 6 := by
    show (run_tests env.run env.timeout).total_tests = 6
    rw [hr]
    show (parse_counts (some l) s).2 = 6
    rw [hc]
  have hpt : (python_prerubric env).passed_tests = 6 := by
    show (run_tests env.run env.timeout).passed_tests = 6
    rw [hr]
    show (parse_counts (some l) s).1 = 6
    rw [hc]
  have hw : (python_prerubric env).warnings.length = 2 := by
    show ((run_tests env.run env.timeout).warnings ++
      (analyze_code env.submission_files).1).length = 2
    rw [hr]
    show ([] ++ (analyze_code env.submission_files).1).length = 2
    rw [List.nil_append]
    exact hwlen
  have hts : rubric_test_score (python_prerubric env) = 70 := by
    rw [rubric_test_score, htt, hpt]
    norm_num
  have hqp : rubric_quality_penalty (python_prerubric env) = 4 := by
    rw [rubric_quality_penalty, pyMin_eq, hw]
    norm_num
  have hfs : rubric_final_score (python_prerubric env) = 96 := by
    rw [rubric_final_score, pyMax_eq, hts, hqp]
    norm_num
  have h96 : pyRound1 96 = 96 := by exact_mod_cast pyRound1_intCast 96
  have h70 : pyRound1 70 = 70 := by exact_mod_cast pyRound1_intCast 70
  rw [python_evaluate_main env st h1 h2 h3 h4]
  dsimp only
  refine ⟨?_, ?_, ?_⟩
  · show pyRound1 (rubric_final_score (python_prerubric env)) = 96
    rw [hfs]
    exact h96
  · show decide (rubric_final_score (python_prerubric env) ≥ 70) = true
    apply decide_eq_true
    rw [hfs]
    norm_num
  · show [("tests", pyRound1 (rubric_test_score (python_prerubric env))),
      ("base_quality", 30), ("penalty", -(rubric_quality_penalty (python_prerubric env))),
      ("final", pyRound1 (rubric_final_score (python_prerubric env)))] = _
    rw [hts, hqp, hfs, h96, h70]

/-- Application of `two_files_six_tests_scenario` at a concrete
two-file submission with six passing tests. -/
theorem two_files_six_tests_scenario_application :
    (python_evaluate envTwoFiles (some sampleGrade.to_dict)).1.score = 96 ∧
      (python_evaluate envTwoFiles (some sampleGrade.to_dict)).1.passed = true ∧
      (python_evaluate envTwoFiles (some sampleGrade.to_dict)).1.rubric =
        [("tests", 70), ("base_quality", 30), ("penalty", -4), ("final", 96)] :=
  two_files_six_tests_scenario envTwoFiles (some sampleGrade.to_dict)
    "a.py" "x = 1" "b.py" "y = 2" sixPassed "" 1
    rfl rfl rfl rfl rfl (by decide) (by decide)
    (by decide) (by decide) (by decide) (by decide)
    (by decide) (by decide)

/-! ### Claim C7 -/

/-- C7, counterexample to the claim as stated: when pytest is
unavailable and the unittest fallback reports 11 failures, the
evaluation's result carries 11 error entries — the 10-entry cap applies
only to the pytest parser path. -/
theorem errors_cap_violation :
    (python_evaluate envElevenFailures none).1.errors.length = 11 := by
  decide

/-- C7 amended: the errors list of an evaluation result has at most 10
entries on every path (pytest parse truncates to 10, pre-flight and
timeout produce one entry, the fallback's exception path at most two,
and the JavaScript evaluator truncates to 5) except the unittest
fallback's completed-run path, which emits one untruncated entry per
failure or error. -/
theorem errors_cap_amended (penv : PyLabEnv) (pst : GradeStore)
    (jenv : JsLabEnv) (jst : GradeStore) :
    (isUnittestRan penv.run = false → (python_evaluate penv pst).1.errors.length ≤ 10) ∧
      (∀ e u t, penv.run = .pytestUnavailable e (.ran u t) →
        penv.submission_path_set = true → penv.tests_path_set = true →
        penv.test_files.isEmpty = false → penv.submission_files.isEmpty = false →
        (python_evaluate penv pst).1.errors.length =
          u.failures.length + u.errorList.length) ∧
      (js_evaluate jenv jst).1.errors.length ≤ 5 := by
  refine ⟨?_, ?_, ?_⟩
  · intro hnu
    rw [python_evaluate]
    split_ifs with g1 g2 g3 <;>
      first
      | (dsimp only; norm_num)
      | skip
    have he : (python_graded penv).errors = (run_tests penv.run penv.timeout).errors := rfl
    rw [he]
    cases hrun : penv.run with
    | pytestTimeout e => norm_num [run_tests]
    | pytestRan j s t => exact List.length_take_le 10 _
    | pytestUnavailable e u =>
      cases u with
      | ran ur t =>
        rw [hrun] at hnu
        simp [isUnittestRan] at hnu
      | exc m el => exact le_trans (List.length_take_le 2 _) (by norm_num)
  · intro e u t hrun h1 h2 h3 h4
    rw [python_evaluate_main penv pst h1 h2 h3 h4]
    dsimp only
    have he : (python_graded penv).errors = (run_tests penv.run penv.timeout).errors := rfl
    rw [he, hrun]
    show ((u.failures ++ u.errorList).map _).length = _
    rw [List.length_map, List.length_append]
  · rw [js_evaluate]
    split_ifs with g1 g2 g3 <;>
      first
      | (dsimp only; norm_num)
      | skip
    cases hrun : jenv.runResult with
    | nodeMissing => dsimp only; norm_num
    | timedOut => dsimp only; norm_num
    | completed rc parsed so se => exact List.length_take_le 5 _

/-- Application of `errors_cap_amended`: an ordinary pytest run stays
within the 10-entry cap, the unittest fallback with 11 failures
produces exactly 11 entries, and a JS run stays within 5. -/
theorem errors_cap_amended_application :
    (python_evaluate envOrdinary none).1.errors.length ≤ 10 ∧
      (python_evaluate envElevenFailures none).1.errors.length =
        elevenFailures.length + ([] : List (String × String)).length ∧
      (js_evaluate jenvOrdinary none).1.errors.length ≤ 5 := by
  have ha := errors_cap_amended envOrdinary none jenvOrdinary none
  have hb := errors_cap_amended envElevenFailures none jenvOrdinary none
  exact ⟨ha.1 rfl,
    hb.2.1 "no pytest" ⟨11, elevenFailures, []⟩ 2 rfl rfl rfl rfl rfl,
    ha.2.2⟩

/-! ### Claim C6 -/

/-- C6, counterexample to the claim as stated: with `submission_path`
unset, evaluation does not fail with a `ConfigurationError` (no such
exception class exists in the module and nothing is raised): it returns
normally with a zero-score `GradeResult` carrying the misconfiguration
message. -/
theorem misconfigured_no_exception :
    (python_evaluate_exc envUnset none).isOk = true ∧
      python_evaluate_exc envUnset none =
        Except.ok ({ score := 0, errors := [cfgErrorMsg] }, none) :=
  ⟨rfl, rfl⟩

/-- C6 amended: with `submission_path` or `tests_path` unset, either
evaluator returns (rather than raises) a zero-score `GradeResult`
whose single error entry is the misconfiguration message, leaving the
grade store untouched. -/
theorem misconfigured_returns_result (penv : PyLabEnv) (pst : GradeStore)
    (jenv : JsLabEnv) (jst : GradeStore)
    (hp : penv.submission_path_set = false ∨ penv.tests_path_set = false)
    (hj : jenv.submission_path_set = false ∨ jenv.tests_path_set = false) :
    python_evaluate_exc penv pst = Except.ok ({ score := 0, errors := [cfgErrorMsg] }, pst) ∧
      js_evaluate_exc jenv jst = Except.ok ({ score := 0, errors := [cfgErrorMsg] }, jst) := by
  constructor
  · rw [python_evaluate_exc, python_evaluate]
    rcases hp with h | h <;> simp [h]
  · rw [js_evaluate_exc, js_evaluate]
    rcases hj with h | h <;> simp [h]

/-- Application of `misconfigured_returns_result` at concrete
misconfigured labs. -/
theorem misconfigured_returns_result_application :
    python_evaluate_exc envUnset none =
        Except.ok ({ score := 0, errors := [cfgErrorMsg] }, none) ∧
      js_evaluate_exc jenvUnset none =
        Except.ok ({ score := 0, errors := [cfgErrorMsg] }, none) :=
  misconfigured_returns_result envUnset none jenvUnset none (Or.inl rfl) (Or.inr rfl)

/-! ### Claim C8 -/

/-- C8: `from_dict` inverts `to_dict` on every `GradeResult`, and when
the lab has a `grade_path`, `load_grade` right after `save_grade`
returns a result equal to the saved one in all fields. -/
theorem grade_roundtrip (r : GradeResult) (gp : Option String) (st : GradeStore)
    (p : String) (h : gp = some p) :
    GradeResult.from_dict (GradeResult.to_dict r) = r ∧
      load_grade gp (save_grade gp r st) = some r := by
  subst h
  exact ⟨rfl, rfl⟩

/-- Application of `grade_roundtrip` at a concrete grade. -/
theorem grade_roundtrip_application :
    GradeResult.from_dict (GradeResult.to_dict sampleGrade) = sampleGrade ∧
      load_grade (some "grade.json") (save_grade (some "grade.json") sampleGrade none) =
        some sampleGrade :=
  grade_roundtrip sampleGrade (some "grade.json") none "grade.json" rfl

/-! ### Claim C9 -/

/-- C9: when pre-flight validation fails (paths unset, no test files,
or an empty submission), either evaluator returns a zero-score result
with `passed = false` and leaves the grade store exactly as it was —
nothing is written to `grade_path`. -/
theorem preflight_returns_without_write (penv : PyLabEnv) (pst : GradeStore)
    (jenv : JsLabEnv) (jst : GradeStore)
    (hp : penv.submission_path_set = false ∨ penv.tests_path_set = false ∨
      penv.test_files.isEmpty = true ∨ penv.submission_files.isEmpty = true)
    (hj : jenv.submission_path_set = false ∨ jenv.tests_path_set = false ∨
      jenv.submission_files.isEmpty = true ∨ jenv.test_files.isEmpty = true) :
    ((python_evaluate penv pst).2 = pst ∧ (python_evaluate penv pst).1.score = 0 ∧
      (python_evaluate penv pst).1.passed = false) ∧
    ((js_evaluate jenv jst).2 = jst ∧ (js_evaluate jenv jst).1.score = 0 ∧
      (js_evaluate jenv jst).1.passed = false) := by
  constructor
  · rw [python_evaluate]
    split_ifs with g1 g2 g3 <;>
      first
        | exact ⟨rfl, rfl, rfl⟩
        | (exfalso; rcases hp with h | h | h | h <;> simp_all)
  · rw [js_evaluate]
    split_ifs with g1 g2 g3 <;>
      first
        | exact ⟨rfl, rfl, rfl⟩
        | (exfalso; rcases hj with h | h | h | h <;> simp_all)

/-- Application of `preflight_returns_without_write` at concrete
misconfigured labs with a previously saved grade in the store: the
store survives unchanged. -/
theorem preflight_returns_without_write_application :
    ((python_evaluate envUnset (some sampleGrade.to_dict)).2 = some sampleGrade.to_dict ∧
      (python_evaluate envUnset (some sampleGrade.to_dict)).1.score = 0 ∧
      (python_evaluate envUnset (some sampleGrade.to_dict)).1.passed = false) ∧
    ((js_evaluate jenvUnset (some sampleGrade.to_dict)).2 = some sampleGrade.to_dict ∧
      (js_evaluate jenvUnset (some sampleGrade.to_dict)).1.score = 0 ∧
      (js_evaluate jenvUnset (some sampleGrade.to_dict)).1.passed = false) :=
  preflight_returns_without_write envUnset (some sampleGrade.to_dict)
    jenvUnset (some sampleGrade.to_dict) (Or.inl rfl) (Or.inr (Or.inl rfl))

/-! ### Claim C10 -/

/-- C10: a JavaScript evaluation whose test process exits 0 printing no
machine-readable report yields `passed = true` and `score = 100` while
`passed_tests = 0` and `total_tests` equals the number of discovered
test files, so the passing result reports fewer passed tests than total
tests. -/
theorem js_exit_zero_no_report (env : JsLabEnv) (st : GradeStore) (sOut sErr : String)
    (h1 : env.submission_path_set = true) (h2 : env.tests_path_set = true)
    (h3 : env.submission_files.isEmpty = false) (h4 : env.test_files.isEmpty = false)
    (hr : env.runResult = .completed 0 .noReport sOut sErr) :
    (js_evaluate env st).1.passed = true ∧ (js_evaluate env st).1.score = 100 ∧
      (js_evaluate env st).1.passed_tests = 0 ∧
      (js_evaluate env st).1.total_tests = (env.test_files.length : ℤ) ∧
      (js_evaluate env st).1.passed_tests < (js_evaluate env st).1.total_tests := by
  have hlen : env.test_files ≠ [] := List.isEmpty_eq_false.mp h4
  have hpos : 0 < env.test_files.length := List.length_pos.mpr hlen
  have hgr : (js_evaluate env st).1 = js_graded env.test_files 0 .noReport sOut sErr := by
    rw [js_evaluate]
    simp [h1, h2, h3, h4, hr]
  rw [hgr, js_graded]
  refine ⟨rfl, rfl, rfl, by norm_num, ?_⟩
  show (0 : ℤ) < _
  simp only []
  norm_num
  exact_mod_cast hpos

/-- Application of `js_exit_zero_no_report` at a concrete lab with two
test files. -/
theorem js_exit_zero_no_report_application :
    (js_evaluate jenvSilent none).1.passed = true ∧
      (js_evaluate jenvSilent none).1.score = 100 ∧
      (js_evaluate jenvSilent none).1.passed_tests = 0 ∧
      (js_evaluate jenvSilent none).1.total_tests = (jenvSilent.test_files.length : ℤ) ∧
      (js_evaluate jenvSilent none).1.passed_tests < (js_evaluate jenvSilent none).1.total_tests :=
  js_exit_zero_no_report jenvSilent none "ok" "" rfl rfl rfl rfl rfl

end TutorTui
